import Mathlib

/-!
Verification development for the RoyalChess server core (capture-based
payment model): a shallow embedding of `src/game/Constants.ts` and
`src/game/ChessGameManager.ts` (the capture-payment manager), together
with proofs about its settlement, capture-economics, wager, draw and
timer operations.

Modelling conventions:
- JS numbers holding satoshi/cent amounts are modelled as `Nat`; the
  amounts in play are far below 2^53, and `Math.ceil(x * p / 100)` on
  such integers is the exact ceiling `(x * p + 99) / 100`.
- `Math.floor` on a non-negative quotient is `Nat` division.
- The chess.js engine is an external capability (out of scope per the
  spec); a move attempt is parameterised by the engine's reply (applied
  move, captured piece, terminal flags), and the game keeps the side to
  move of the engine instance.
- Wall-clock timestamp fields (`createdAt`, `startedAt`, `endedAt`,
  `pausedAt`, `turnStartedAt`, `disconnectedAt` values) and the tier /
  price bookkeeping inside `GameState` are elided: no claim depends on
  them. `depositSats` and `baseSats` carry the economic state.
- `setTimeout` / `clearTimeout` timer bookkeeping is modelled by an
  explicit `TimerSys`: scheduled-and-not-yet-cancelled timers are the
  `live` list, and the manager's three timer maps track ids, exactly as
  in the source. The timer effects of each manager method are modelled
  by correspondingly named functions on `TimerSys`.
-/

-- ===========================================================================
-- Basic types (ChessGameManager.ts lines 677-678, Constants.ts line 42)
-- ===========================================================================

inductive PlayerSlot
  | white
  | black
deriving DecidableEq

inductive GamePhase
  | awaiting_wagers
  | playing
  | paused
  | gameover
deriving DecidableEq

inductive ChessColor
  | w
  | b
deriving DecidableEq

inductive ChessPieceType
  | k
  | q
  | r
  | b
  | n
  | p
deriving DecidableEq

inductive GameEndReason
  | checkmate
  | stalemate
  | resignation
  | disconnect
  | timeout
  | insufficient_funds
  | draw_agreement
  | threefold_repetition
  | fifty_move_rule
  | insufficient_material
deriving DecidableEq

-- ===========================================================================
-- Constants.ts
-- ===========================================================================

/-- Constants.ts line 72: `PLATFORM_CUT_PERCENT = 3`. -/
def PLATFORM_CUT_PERCENT : Nat := 3

/-- Constants.ts lines 44-51: `PIECE_CAPTURE_PERCENT`. -/
def PIECE_CAPTURE_PERCENT : ChessPieceType → Nat
  | .k => 100
  | .q => 90
  | .r => 80
  | .b => 70
  | .n => 70
  | .p => 20

/-- Constants.ts lines 18-23: `StakeTierDef`. -/
structure StakeTierDef where
  tier : Nat
  name : String
  depositCents : Nat
  baseCents : Nat
deriving DecidableEq

/-- Constants.ts lines 25-32: `STAKE_TIERS`. -/
def STAKE_TIERS : List StakeTierDef :=
  [ { tier := 1,    name := "Penny",   depositCents := 1,    baseCents := 1 },
    { tier := 25,   name := "Quarter", depositCents := 25,   baseCents := 25 },
    { tier := 50,   name := "Half",    depositCents := 50,   baseCents := 50 },
    { tier := 100,  name := "Dollar",  depositCents := 100,  baseCents := 100 },
    { tier := 500,  name := "Five",    depositCents := 500,  baseCents := 500 },
    { tier := 1000, name := "Ten",     depositCents := 1000, baseCents := 1000 } ]

/-- Constants.ts lines 34-36: `getTierByValue`. -/
def getTierByValue (v : Nat) : Option StakeTierDef :=
  STAKE_TIERS.find? (fun t => t.tier == v)

/-- Constants.ts line 100: `WORST_CASE_CAPTURE_PERCENT = 90 + 80*2 + 70*2 + 70*2 + 20*8`.
The adjacent source comment asserts this equals 790, but the expression
evaluates to 690 (the king's 100 is absent from the sum). -/
def WORST_CASE_CAPTURE_PERCENT : Nat := 90 + 80 * 2 + 70 * 2 + 70 * 2 + 20 * 8

/-- Largest exponent `e ≤ k` with `2 ^ e * d ≤ n`, i.e. `⌊log₂ (n/d)⌋`
for `n ≥ d` (0 if none). Used to locate the binary64 exponent. -/
def floorLog2Below (d n : Nat) : Nat → Nat
  | 0 => 0
  | k + 1 => if 2 ^ (k + 1) * d ≤ n then k + 1 else floorLog2Below d n k

/-- Round the exact non-negative value `n / d` (`d ≠ 0`) to the nearest
IEEE binary64 double (round half to even), returned as an exact
numerator/denominator pair. Valid for values in `[1, 2^53)`, the range
of every intermediate value of the balance computation below for the
catalogued tiers; values outside that range (never produced here) are
returned unchanged. The value is scaled so the significand `m0` has 53
bits (`m0 ∈ [2^52, 2^53)`), the fractional remainder `rem / d` decides
the rounding direction, and ties go to the even significand. -/
def roundDoubleFrac (n d : Nat) : Nat × Nat :=
  if n < d ∨ 2 ^ 53 * d ≤ n then (n, d)
  else
    let e := floorLog2Below d n 60
    let scale := 2 ^ (52 - e)
    let m0 := n * scale / d
    let rem := n * scale % d
    let m := if 2 * rem < d then m0
             else if d < 2 * rem then m0 + 1
             else if m0 % 2 = 0 then m0 else m0 + 1
    (m, scale)

/-- Constants.ts lines 102-106: `getMinBalanceCents(tier)`, i.e.
`Math.ceil((deposit + base * (WORST_CASE_CAPTURE_PERCENT / 100)) * 1.1)`
computed in JS double arithmetic. Every JS operation is correctly
rounded to binary64, so each step below is the exact result of the
operation followed by `roundDoubleFrac`; the integer inputs and the
literals 11/10 (the source text `1.1`) and 100 are exact. `Math.ceil`
on the final (positive) double is its exact ceiling. -/
def getMinBalanceCents (t : StakeTierDef) : Nat :=
  let p := roundDoubleFrac WORST_CASE_CAPTURE_PERCENT 100
  let w := roundDoubleFrac (t.baseCents * p.1) p.2
  let s := roundDoubleFrac (t.depositCents * w.2 + w.1) w.2
  let lit := roundDoubleFrac 11 10
  let v := roundDoubleFrac (s.1 * lit.1) (s.2 * lit.2)
  (v.1 + v.2 - 1) / v.2

/-- Claim-side formula for the worst-case percent: the sum of the capture
percentages of a full initial army (1 king, 1 queen, 2 rooks, 2 bishops,
2 knights, 8 pawns), written against `PIECE_CAPTURE_PERCENT`. -/
def fullArmyCapturePercent : Nat :=
  PIECE_CAPTURE_PERCENT .k + PIECE_CAPTURE_PERCENT .q
    + 2 * PIECE_CAPTURE_PERCENT .r + 2 * PIECE_CAPTURE_PERCENT .b
    + 2 * PIECE_CAPTURE_PERCENT .n + 8 * PIECE_CAPTURE_PERCENT .p

/-- Claim-side balance requirement: like `getMinBalanceCents` but with
the full-army percentage sum, as the spec sentence states it, under the
same JS double semantics. -/
def specMinBalanceCents (t : StakeTierDef) : Nat :=
  let p := roundDoubleFrac fullArmyCapturePercent 100
  let w := roundDoubleFrac (t.baseCents * p.1) p.2
  let s := roundDoubleFrac (t.depositCents * w.2 + w.1) w.2
  let lit := roundDoubleFrac 11 10
  let v := roundDoubleFrac (s.1 * lit.1) (s.2 * lit.2)
  (v.1 + v.2 - 1) / v.2

-- ===========================================================================
-- Game state (ChessGameManager.ts lines 680-769)
-- ===========================================================================

/-- ChessGameManager.ts lines 680-689: `PlayerState`. -/
structure PlayerState where
  socketId : String
  address : String
  username : String
  color : PlayerSlot
  wagerPaid : Bool
  moveCount : Nat
  connected : Bool
  disconnectedAt : Option Nat
deriving DecidableEq

/-- ChessGameManager.ts lines 703-708: the pending deposit payment (the
capture model only ever stores `type: 'wager'`, so the tag is elided). -/
structure PendingPayment where
  fromSlot : PlayerSlot
  amount : Nat
  toAddress : String
deriving DecidableEq

/-- ChessGameManager.ts lines 710-719: one capture-ledger entry. -/
structure CapturePayment where
  fromSlot : PlayerSlot
  toSlot : PlayerSlot
  piece : ChessPieceType
  amountSats : Nat
  capturerSats : Nat
  platformSats : Nat
  paid : Bool
deriving DecidableEq

/-- ChessGameManager.ts line 731: one `moveHistory` record. -/
structure MoveRecord where
  san : String
  fromSq : String
  toSq : String
  color : ChessColor
deriving DecidableEq

/-- ChessGameManager.ts lines 691-732: `GameState`. `chessTurn` is the
side to move of the server-authoritative chess.js instance. -/
structure GameState where
  id : String
  phase : GamePhase
  depositSats : Nat
  baseSats : Nat
  chessTurn : ChessColor
  white : PlayerState
  black : PlayerState
  pot : Nat
  pendingPayment : Option PendingPayment
  capturePayments : List CapturePayment
  pausedFor : Option PlayerSlot
  pauseReason : Option String
  endReason : Option GameEndReason
  winner : Option PlayerSlot
  moveHistory : List MoveRecord
deriving DecidableEq

/-- ChessGameManager.ts lines 759-769: `GameOverResult`. -/
structure GameOverResult where
  winner : Option PlayerSlot
  loser : Option PlayerSlot
  reason : GameEndReason
  pot : Nat
  winnerPayout : Nat
  loserPayout : Nat
  platformCut : Nat
  whiteAddress : String
  blackAddress : String
deriving DecidableEq

/-- ChessGameManager.ts line 1290: `opponentSlot`. -/
def opponentSlot : PlayerSlot → PlayerSlot
  | .white => .black
  | .black => .white

/-- Seat selection `game[slot]` (read). -/
def seatOf (g : GameState) : PlayerSlot → PlayerState
  | .white => g.white
  | .black => g.black

/-- Seat selection `game[slot]` (write). -/
def setSeat (g : GameState) (slot : PlayerSlot) (p : PlayerState) : GameState :=
  match slot with
  | .white => { g with white := p }
  | .black => { g with black := p }

/-- `game.chess.turn() === 'w' ? 'white' : 'black'`. -/
def currentTurnSlot : ChessColor → PlayerSlot
  | .w => .white
  | .b => .black

/-- The side to move flips when a move is applied to the chess instance. -/
def flipColor : ChessColor → ChessColor
  | .w => .b
  | .b => .w

-- ===========================================================================
-- Manager registry (ChessGameManager.ts lines 776-777, 1280-1289)
-- ===========================================================================

/-- Association-list lookup, modelling `Map.get`. -/
def assocFind {α : Type} : List (String × α) → String → Option α
  | [], _ => none
  | (k, v) :: t, key => if k = key then some v else assocFind t key

/-- Association-list insert/replace, modelling `Map.set`. -/
def assocSet {α : Type} : List (String × α) → String → α → List (String × α)
  | [], key, v => [(key, v)]
  | (k, w) :: t, key, v => if k = key then (key, v) :: t else (k, w) :: assocSet t key v

/-- Association-list removal, modelling `Map.delete`. -/
def assocDelete {α : Type} : List (String × α) → String → List (String × α)
  | [], _ => []
  | (k, w) :: t, key => if k = key then t else (k, w) :: assocDelete t key

/-- The manager's shared registry maps (`games`, `playerToGame`); the
timer maps live in `TimerSys` below. -/
structure Manager where
  games : List (String × GameState)
  playerToGame : List (String × String)
deriving DecidableEq

/-- ChessGameManager.ts lines 1281-1284: `getGameBySocket`. -/
def getGameBySocket (m : Manager) (sid : String) : Option GameState :=
  match assocFind m.playerToGame sid with
  | none => none
  | some gid => assocFind m.games gid

/-- ChessGameManager.ts lines 1285-1289: `getSlot`. -/
def getSlot (g : GameState) (sid : String) : Option PlayerSlot :=
  if g.white.socketId = sid then some .white
  else if g.black.socketId = sid then some .black
  else none

-- ===========================================================================
-- Settlement (ChessGameManager.ts lines 1039-1076 and 1082-1104)
-- ===========================================================================

/-- ChessGameManager.ts lines 1039-1076: `endGame` — the decisive
settlement. Returns the mutated game (phase, endReason, winner,
pendingPayment) and the computed `GameOverResult`. Timer cancellations
are modelled in `TimerSys` (`endGameTimers`). `Math.ceil(x * 3 / 100)`
is the exact integer ceiling `(x * 3 + 99) / 100`. -/
def endGame (game : GameState) (winner : PlayerSlot) (reason : GameEndReason) :
    GameState × GameOverResult :=
  let game' := { game with phase := .gameover, endReason := some reason,
                           winner := some winner, pendingPayment := none }
  let loser := opponentSlot winner
  let ownDeposit := game.depositSats
  let loserDeposit := game.depositSats
  let depositPlatformCut := (loserDeposit * PLATFORM_CUT_PERCENT + 99) / 100
  let depositToWinner := loserDeposit - depositPlatformCut
  let capturePlatformCut :=
    game.capturePayments.foldl (fun sum cp => sum + cp.platformSats) 0
  let totalPlatformCut := depositPlatformCut + capturePlatformCut
  let captureEarnings :=
    (game.capturePayments.filter (fun cp => decide (cp.toSlot = winner))).foldl
      (fun sum cp => sum + cp.capturerSats) 0
  let winnerPayout := ownDeposit + depositToWinner + captureEarnings
  (game',
   { winner := some winner, loser := some loser, reason := reason,
     pot := game.pot + game.depositSats * 2,
     winnerPayout := winnerPayout, loserPayout := 0, platformCut := totalPlatformCut,
     whiteAddress := game.white.address, blackAddress := game.black.address })

/-- ChessGameManager.ts lines 1082-1104: `endGameDraw`.
`Math.floor(d * (1 - 3/100))` is the exact floor `d * 97 / 100`. -/
def endGameDraw (game : GameState) (reason : GameEndReason) :
    GameState × GameOverResult :=
  let game' := { game with phase := .gameover, endReason := some reason,
                           winner := none, pendingPayment := none }
  let depositReturn := game.depositSats * (100 - PLATFORM_CUT_PERCENT) / 100
  let platformCut := (game.depositSats - depositReturn) * 2
  (game',
   { winner := none, loser := none, reason := reason,
     pot := game.pot + game.depositSats * 2,
     winnerPayout := depositReturn, loserPayout := depositReturn, platformCut := platformCut,
     whiteAddress := game.white.address, blackAddress := game.black.address })

-- ===========================================================================
-- Wager confirmation (ChessGameManager.ts lines 875-896)
-- ===========================================================================

/-- Reply shape of `confirmWagerPayment`. -/
structure WagerConfirmReply where
  success : Bool
  bothPaid : Bool
deriving DecidableEq

/-- ChessGameManager.ts lines 875-896: `confirmWagerPayment`. Note that
the source checks only that the game exists: there is no phase guard and
no already-paid guard before `wagerPaid := true` and `pot += depositSats`.
The `startTurnTimer` call of the both-paid branch is modelled in
`TimerSys` (`startTurnTimer`). -/
def confirmWagerPayment (m : Manager) (gameId : String) (slot : PlayerSlot) :
    Manager × WagerConfirmReply :=
  match assocFind m.games gameId with
  | none => (m, { success := false, bothPaid := false })
  | some game =>
    let g1 := setSeat game slot { seatOf game slot with wagerPaid := true }
    let g2 := { g1 with pot := g1.pot + g1.depositSats, pendingPayment := none }
    let bothPaid := g2.white.wagerPaid && g2.black.wagerPaid
    let g3 := if bothPaid then { g2 with phase := .playing } else g2
    ({ m with games := assocSet m.games gameId g3 },
     { success := true, bothPaid := bothPaid })

-- ===========================================================================
-- Move attempt (ChessGameManager.ts lines 902-999)
-- ===========================================================================

/-- The outcome chess.js reports for an applied move. -/
structure MoveOutcome where
  san : String
  fromSq : String
  toSq : String
  color : ChessColor
  captured : Option ChessPieceType
deriving DecidableEq

/-- The chess.js replies `attemptMove` consumes for one call: the result
of `chess.move` and the terminal predicates evaluated on the post-move
position. The engine is an external capability per the spec. -/
structure EngineReply where
  applied : Option MoveOutcome
  isCheckmate : Bool
  isStalemate : Bool
  isThreefoldRepetition : Bool
  isInsufficientMaterial : Bool
  isDraw : Bool
  isCheck : Bool
deriving DecidableEq

/-- The `capturePayment` field of a `MoveResult` (lines 741-748). -/
structure CapturePaymentInfo where
  victimSlot : PlayerSlot
  capturerSlot : PlayerSlot
  piece : ChessPieceType
  amountSats : Nat
  capturerSats : Nat
  platformSats : Nat
deriving DecidableEq

/-- The parts of `MoveResult` (lines 734-757) the claims are about. -/
structure MoveResultE where
  success : Bool
  capturePayment : Option CapturePaymentInfo
  gameOver : Bool
  gameOverResult : Option GameOverResult
deriving DecidableEq

/-- A failed move attempt: `{ success: false, error: ... }`. -/
def moveFailure : MoveResultE :=
  { success := false, capturePayment := none, gameOver := false, gameOverResult := none }

/-- ChessGameManager.ts lines 929-963: the capture block of `attemptMove`.
`Math.ceil(baseSats * (pct / 100))` is the exact ceiling
`(baseSats * pct + 99) / 100`, and `Math.ceil(amount * 3 / 100)` is
`(amount * 3 + 99) / 100`. -/
def applyCaptureBlock (g : GameState) (slot : PlayerSlot) (mv : MoveOutcome) :
    GameState × Option CapturePaymentInfo :=
  match mv.captured with
  | none => (g, none)
  | some capturedPiece =>
    let victimSlot := opponentSlot slot
    let capturerSlot := slot
    let amountSats := (g.baseSats * PIECE_CAPTURE_PERCENT capturedPiece + 99) / 100
    let platformSats := (amountSats * PLATFORM_CUT_PERCENT + 99) / 100
    let capturerSats := amountSats - platformSats
    ({ g with
        capturePayments := g.capturePayments ++
          [{ fromSlot := victimSlot, toSlot := capturerSlot, piece := capturedPiece,
             amountSats := amountSats, capturerSats := capturerSats,
             platformSats := platformSats, paid := false }],
        pot := g.pot + amountSats },
     some { victimSlot := victimSlot, capturerSlot := capturerSlot, piece := capturedPiece,
            amountSats := amountSats, capturerSats := capturerSats,
            platformSats := platformSats })

/-- ChessGameManager.ts lines 902-999: `attemptMove` (capture model).
Guards: bound game, phase `playing`, caller is a seat, caller's slot is
the side to move, engine accepts the move. Then: move count and history
update, capture block, terminal dispatch in source order. The
`startTurnTimer` of the non-terminal branch and the timer clearing of
`endGame` are modelled in `TimerSys`. -/
def attemptMove (m : Manager) (socketId : String) (reply : EngineReply) :
    Manager × MoveResultE :=
  match assocFind m.playerToGame socketId with
  | none => (m, moveFailure)
  | some gid =>
    match assocFind m.games gid with
    | none => (m, moveFailure)
    | some game =>
      if game.phase ≠ GamePhase.playing then (m, moveFailure)
      else
        match getSlot game socketId with
        | none => (m, moveFailure)
        | some slot =>
          if slot ≠ currentTurnSlot game.chessTurn then (m, moveFailure)
          else
            match reply.applied with
            | none => (m, moveFailure)
            | some mv =>
              let seat := seatOf game slot
              let g1 := setSeat game slot { seat with moveCount := seat.moveCount + 1 }
              let g2 := { g1 with chessTurn := flipColor g1.chessTurn,
                                  moveHistory := g1.moveHistory ++
                                    [{ san := mv.san, fromSq := mv.fromSq,
                                       toSq := mv.toSq, color := mv.color }] }
              let g3 := (applyCaptureBlock g2 slot mv).1
              let capInfo := (applyCaptureBlock g2 slot mv).2
              if reply.isCheckmate then
                ({ m with games := assocSet m.games gid (endGame g3 slot .checkmate).1 },
                 { success := true, capturePayment := capInfo, gameOver := true,
                   gameOverResult := some (endGame g3 slot .checkmate).2 })
              else if reply.isStalemate then
                ({ m with games := assocSet m.games gid (endGameDraw g3 .stalemate).1 },
                 { success := true, capturePayment := capInfo, gameOver := true,
                   gameOverResult := some (endGameDraw g3 .stalemate).2 })
              else if reply.isThreefoldRepetition then
                ({ m with games := assocSet m.games gid (endGameDraw g3 .threefold_repetition).1 },
                 { success := true, capturePayment := capInfo, gameOver := true,
                   gameOverResult := some (endGameDraw g3 .threefold_repetition).2 })
              else if reply.isInsufficientMaterial then
                ({ m with games := assocSet m.games gid (endGameDraw g3 .insufficient_material).1 },
                 { success := true, capturePayment := capInfo, gameOver := true,
                   gameOverResult := some (endGameDraw g3 .insufficient_material).2 })
              else if reply.isDraw then
                ({ m with games := assocSet m.games gid (endGameDraw g3 .fifty_move_rule).1 },
                 { success := true, capturePayment := capInfo, gameOver := true,
                   gameOverResult := some (endGameDraw g3 .fifty_move_rule).2 })
              else
                ({ m with games := assocSet m.games gid g3 },
                 { success := true, capturePayment := capInfo, gameOver := false,
                   gameOverResult := none })

-- ===========================================================================
-- Draw offer / accept (ChessGameManager.ts lines 1005-1019)
-- ===========================================================================

/-- ChessGameManager.ts lines 1005-1012: `offerDraw`. It only looks up
the opponent's socket id; no draw-offer state exists anywhere in
`GameState` or the manager, and nothing is mutated. -/
def offerDraw (m : Manager) (sid : String) : Manager × Option String :=
  match assocFind m.playerToGame sid with
  | none => (m, none)
  | some gid =>
    match assocFind m.games gid with
    | none => (m, none)
    | some g =>
      if g.phase = GamePhase.playing then
        match getSlot g sid with
        | none => (m, none)
        | some slot => (m, some (seatOf g (opponentSlot slot)).socketId)
      else (m, none)

/-- ChessGameManager.ts lines 1014-1019: `acceptDraw`. `some result`
models `{ success: true, result }`; `none` models the failure reply. -/
def acceptDraw (m : Manager) (sid : String) : Manager × Option GameOverResult :=
  match assocFind m.playerToGame sid with
  | none => (m, none)
  | some gid =>
    match assocFind m.games gid with
    | none => (m, none)
    | some g =>
      if g.phase = GamePhase.playing then
        ({ m with games := assocSet m.games gid (endGameDraw g .draw_agreement).1 },
         some (endGameDraw g .draw_agreement).2)
      else (m, none)

-- ===========================================================================
-- Timer-expiry handlers (ChessGameManager.ts lines 1117-1122, 1176-1183,
-- 1222-1228): what each scheduled callback does when it fires.
-- ===========================================================================

/-- ChessGameManager.ts lines 1222-1228: the turn-clock callback body.
Returns the (possibly) mutated game and the settlement, if any. -/
def turnTimerFire (game : GameState) : GameState × Option GameOverResult :=
  if game.phase ≠ GamePhase.playing then (game, none)
  else
    let currentTurn := currentTurnSlot game.chessTurn
    let winner := opponentSlot currentTurn
    ((endGame game winner .timeout).1, some (endGame game winner .timeout).2)

/-- ChessGameManager.ts lines 1117-1122: the funds-pause callback body
(`forSlot` is captured by the closure at pause time). -/
def pauseTimerFire (forSlot : PlayerSlot) (game : GameState) :
    GameState × Option GameOverResult :=
  if game.phase ≠ GamePhase.paused then (game, none)
  else
    let winnerSlot := opponentSlot forSlot
    ((endGame game winnerSlot .insufficient_funds).1,
     some (endGame game winnerSlot .insufficient_funds).2)

/-- ChessGameManager.ts lines 1176-1183: the disconnect-grace callback
body; it re-fetches the game from the registry (`games.get`) and
re-checks both the phase and the seat's connection. -/
def disconnectTimerFire (m : Manager) (gid : String) (slot : PlayerSlot) :
    Manager × Option GameOverResult :=
  match assocFind m.games gid with
  | none => (m, none)
  | some g =>
    if g.phase = GamePhase.gameover then (m, none)
    else if (seatOf g slot).connected then (m, none)
    else
      let winner := opponentSlot slot
      ({ m with games := assocSet m.games gid (endGame g winner .disconnect).1 },
       some (endGame g winner .disconnect).2)

-- ===========================================================================
-- Timer bookkeeping (ChessGameManager.ts lines 778-780, 1110-1126,
-- 1172-1186, 1220-1246)
-- ===========================================================================

inductive TimerFamily
  | turn
  | pause
  | disc
deriving DecidableEq

/-- A scheduled, not-yet-cancelled `setTimeout` callback, tagged with the
family and key it was created for. -/
structure LiveTimer where
  tid : Nat
  family : TimerFamily
  gid : String
  seat : Option PlayerSlot
deriving DecidableEq

/-- The manager's timer state: the three tracking maps (lines 778-780)
plus the set of live (scheduled, uncancelled) timers. -/
structure TimerSys where
  turnTimers : List (String × Nat)
  pauseTimers : List (String × Nat)
  disconnectTimers : List (String × Nat)
  live : List LiveTimer
  nextId : Nat
deriving DecidableEq

def slotKey : PlayerSlot → String
  | .white => "white"
  | .black => "black"

/-- The disconnect-map key string `gameId:slot` (lines 1173, 1243). -/
def discKey (gid : String) (slot : PlayerSlot) : String :=
  gid ++ ":" ++ slotKey slot

/-- `setTimeout(...)`: schedules a fresh timer and returns its handle. -/
def jsSetTimeout (s : TimerSys) (fam : TimerFamily) (gid : String)
    (seat : Option PlayerSlot) : TimerSys × Nat :=
  ({ s with
      live := s.live ++ [{ tid := s.nextId, family := fam, gid := gid, seat := seat }],
      nextId := s.nextId + 1 },
   s.nextId)

/-- `clearTimeout(t)`: the timer with that handle is no longer live. -/
def jsClearTimeout (s : TimerSys) (tid : Nat) : TimerSys :=
  { s with live := s.live.filter (fun t => decide (t.tid ≠ tid)) }

/-- ChessGameManager.ts lines 1232-1235: `clearTurnTimer`. -/
def clearTurnTimer (s : TimerSys) (gid : String) : TimerSys :=
  match assocFind s.turnTimers gid with
  | none => s
  | some t => { jsClearTimeout s t with turnTimers := assocDelete s.turnTimers gid }

/-- ChessGameManager.ts lines 1237-1240: `clearPauseTimer`. -/
def clearPauseTimer (s : TimerSys) (gid : String) : TimerSys :=
  match assocFind s.pauseTimers gid with
  | none => s
  | some t => { jsClearTimeout s t with pauseTimers := assocDelete s.pauseTimers gid }

/-- ChessGameManager.ts lines 1242-1246: `clearDisconnectTimer`. -/
def clearDisconnectTimer (s : TimerSys) (gid : String) (slot : PlayerSlot) : TimerSys :=
  match assocFind s.disconnectTimers (discKey gid slot) with
  | none => s
  | some t =>
    { jsClearTimeout s t with
      disconnectTimers := assocDelete s.disconnectTimers (discKey gid slot) }

/-- ChessGameManager.ts lines 1220-1230: the timer effect of
`startTurnTimer` — it clears the tracked turn timer first, then
schedules and tracks a new one. -/
def startTurnTimer (s : TimerSys) (gid : String) : TimerSys :=
  let s1 := clearTurnTimer s gid
  let s2 := (jsSetTimeout s1 .turn gid none).1
  let tid := (jsSetTimeout s1 .turn gid none).2
  { s2 with turnTimers := assocSet s2.turnTimers gid tid }

/-- ChessGameManager.ts lines 1110-1126: the timer effect of
`pauseForFunds` — it clears the turn timer, then schedules a pause timer
and tracks it WITHOUT first clearing any existing pause timer for the
game (there is no `clearPauseTimer` call before `pauseTimers.set`). -/
def pauseForFundsTimers (s : TimerSys) (gid : String) : TimerSys :=
  let s1 := clearTurnTimer s gid
  let s2 := (jsSetTimeout s1 .pause gid none).1
  let tid := (jsSetTimeout s1 .pause gid none).2
  { s2 with pauseTimers := assocSet s2.pauseTimers gid tid }

/-- ChessGameManager.ts lines 1172-1186: the timer effect of the
playing/paused branch of `handleDisconnect` — it clears the turn timer
and the tracked disconnect timer for the seat, then schedules and tracks
a new grace timer. -/
def handleDisconnectTimers (s : TimerSys) (gid : String) (slot : PlayerSlot) : TimerSys :=
  let s1 := clearTurnTimer s gid
  let s2 := clearDisconnectTimer s1 gid slot
  let s3 := (jsSetTimeout s2 .disc gid (some slot)).1
  let tid := (jsSetTimeout s2 .disc gid (some slot)).2
  { s3 with disconnectTimers := assocSet s3.disconnectTimers (discKey gid slot) tid }

/-- Number of live turn-clock timers for a game. -/
def liveTurnCount (s : TimerSys) (gid : String) : Nat :=
  s.live.countP (fun t => decide (t.family = TimerFamily.turn ∧ t.gid = gid))

/-- Number of live funds-pause timers for a game. -/
def livePauseCount (s : TimerSys) (gid : String) : Nat :=
  s.live.countP (fun t => decide (t.family = TimerFamily.pause ∧ t.gid = gid))

/-- Number of live disconnect-grace timers for a game/seat key. -/
def liveDiscCount (s : TimerSys) (gid : String) (slot : PlayerSlot) : Nat :=
  s.live.countP
    (fun t => decide (t.family = TimerFamily.disc ∧ t.gid = gid ∧ t.seat = some slot))

/-- Well-formedness of the turn-timer tracking for a key: every live
turn timer for the game is the tracked one. -/
abbrev turnConsistent (s : TimerSys) (gid : String) : Prop :=
  ∀ t ∈ s.live, t.family = TimerFamily.turn → t.gid = gid →
    assocFind s.turnTimers gid = some t.tid

/-- Well-formedness of the disconnect-timer tracking for a key. -/
abbrev discConsistent (s : TimerSys) (gid : String) (slot : PlayerSlot) : Prop :=
  ∀ t ∈ s.live, t.family = TimerFamily.disc → t.gid = gid → t.seat = some slot →
    assocFind s.disconnectTimers (discKey gid slot) = some t.tid

-- ===========================================================================
-- Concrete instances used by the witnesses and counterexamples below
-- ===========================================================================

/-- Seat builder for the concrete instances below. -/
def mkSeat (sid addr : String) (color : PlayerSlot) (paid : Bool) : PlayerState :=
  { socketId := sid, address := addr, username := addr, color := color,
    wagerPaid := paid, moveCount := 0, connected := true, disconnectedAt := none }

/-- Game builder for the concrete instances below. -/
def mkGame (gid : String) (ph : GamePhase) (dep base pot : Nat)
    (wsid bsid : String) (wPaid bPaid : Bool) : GameState :=
  { id := gid, phase := ph, depositSats := dep, baseSats := base, chessTurn := .w,
    white := mkSeat wsid "addrW" .white wPaid,
    black := mkSeat bsid "addrB" .black bPaid,
    pot := pot, pendingPayment := none, capturePayments := [], pausedFor := none,
    pauseReason := none, endReason := none, winner := none, moveHistory := [] }

/-- A game with both 100-sat deposits confirmed (`pot = 200`) and an empty
capture ledger, still in play. -/
def gameC2 : GameState := mkGame "g2" .playing 100 100 200 "s2w" "s2b" true true

/-- A playing game at `baseSats = 100000` (both deposits in the pot). -/
def gameC3 : GameState := mkGame "g3" .playing 200000 100000 400000 "s1" "s2" true true

def mgrC3 : Manager :=
  { games := [("g3", gameC3)], playerToGame := [("s1", "g3"), ("s2", "g3")] }

/-- A legal white move capturing a pawn, as chess.js would report it. -/
def mvC3 : MoveOutcome :=
  { san := "exd5", fromSq := "e4", toSq := "d5", color := .w, captured := some .p }

def replyC3 : EngineReply :=
  { applied := some mvC3, isCheckmate := false, isStalemate := false,
    isThreefoldRepetition := false, isInsufficientMaterial := false,
    isDraw := false, isCheck := false }

/-- A finished game (phase `gameover`) in which only white had deposited. -/
def gameC5 : GameState := mkGame "g5" .gameover 100 100 100 "s5w" "s5b" true false

def mgrC5 : Manager := { games := [("g5", gameC5)], playerToGame := [] }

/-- A finished game (phase `gameover`) with both deposits already confirmed. -/
def gameC6 : GameState := mkGame "g6" .gameover 100 100 200 "s6w" "s6b" true true

def mgrC6 : Manager := { games := [("g6", gameC6)], playerToGame := [] }

/-- A finished game used to exercise the timer-expiry handlers. -/
def gameC7 : GameState := mkGame "g7" .gameover 100 100 200 "s7w" "s7b" true true

def mgrC7 : Manager := { games := [("g7", gameC7)], playerToGame := [] }

/-- A playing game in which no draw offer was ever recorded (the state has
no field that could record one). -/
def gameC10 : GameState := mkGame "gX" .playing 100 100 200 "sa" "sb" true true

def mgrC10 : Manager :=
  { games := [("gX", gameC10)], playerToGame := [("sa", "gX"), ("sb", "gX")] }

def dollarTier : StakeTierDef :=
  { tier := 100, name := "Dollar", depositCents := 100, baseCents := 100 }

def timersEmpty : TimerSys :=
  { turnTimers := [], pauseTimers := [], disconnectTimers := [], live := [], nextId := 0 }

/-- A timer state with one live, tracked turn timer for game `g8`. -/
def timersC8 : TimerSys :=
  { turnTimers := [("g8", 0)], pauseTimers := [], disconnectTimers := [],
    live := [{ tid := 0, family := .turn, gid := "g8", seat := none }], nextId := 1 }

-- ===========================================================================
-- Helper lemmas
-- ===========================================================================

theorem foldl_add_eq_sum {α : Type} (f : α → Nat) (l : List α) (a : Nat) :
    List.foldl (fun s x => s + f x) a l = a + (l.map f).sum := by
  induction l generalizing a with
  | nil => simp
  | cons x t ih => rw [List.foldl_cons, ih, List.map_cons, List.sum_cons]; omega

theorem assocFind_assocSet_self {α : Type} (l : List (String × α)) (k : String) (v : α) :
    assocFind (assocSet l k v) k = some v := by
  induction l with
  | nil => simp [assocSet, assocFind]
  | cons hd t ih =>
    by_cases h : hd.1 = k
    · simp [assocSet, assocFind, h]
    · simp [assocSet, assocFind, h, ih]

theorem setSeat_capturePayments (g : GameState) (s : PlayerSlot) (p : PlayerState) :
    (setSeat g s p).capturePayments = g.capturePayments := by
  cases s <;> rfl

theorem setSeat_pot (g : GameState) (s : PlayerSlot) (p : PlayerState) :
    (setSeat g s p).pot = g.pot := by
  cases s <;> rfl

theorem setSeat_baseSats (g : GameState) (s : PlayerSlot) (p : PlayerState) :
    (setSeat g s p).baseSats = g.baseSats := by
  cases s <;> rfl

theorem endGame_fst_capturePayments (g : GameState) (w : PlayerSlot) (r : GameEndReason) :
    ((endGame g w r).1).capturePayments = g.capturePayments := rfl

theorem endGame_fst_pot (g : GameState) (w : PlayerSlot) (r : GameEndReason) :
    ((endGame g w r).1).pot = g.pot := rfl

theorem endGameDraw_fst_capturePayments (g : GameState) (r : GameEndReason) :
    ((endGameDraw g r).1).capturePayments = g.capturePayments := rfl

theorem endGameDraw_fst_pot (g : GameState) (r : GameEndReason) :
    ((endGameDraw g r).1).pot = g.pot := rfl

/-- The deposit platform cut never exceeds the deposit. -/
theorem depositCut_le (d : Nat) : (d * PLATFORM_CUT_PERCENT + 99) / 100 ≤ d := by
  simp only [PLATFORM_CUT_PERCENT]
  omega

-- ===========================================================================
-- C1
-- ===========================================================================

/-- C1: for every decisive ending, the `GameOverResult` returned by
`endGame` pays the winner their own deposit, plus the opponent's deposit
minus the platform cut on that deposit, plus the capturer-share of every
capture-ledger entry whose capturer is the winner; the loser receives 0;
and `platformCut` is the platform share of the losing deposit plus the
sum of the platform shares across the whole ledger. -/
theorem C1_endGame_decisive_payouts (g : GameState) (w : PlayerSlot) (r : GameEndReason) :
    ((endGame g w r).2).winnerPayout
      = g.depositSats
        + (g.depositSats - (g.depositSats * PLATFORM_CUT_PERCENT + 99) / 100)
        + (((g.capturePayments.filter (fun cp => decide (cp.toSlot = w))).map
            (fun cp => cp.capturerSats)).sum)
    ∧ ((endGame g w r).2).loserPayout = 0
    ∧ ((endGame g w r).2).platformCut
      = (g.depositSats * PLATFORM_CUT_PERCENT + 99) / 100
        + ((g.capturePayments.map (fun cp => cp.platformSats)).sum) := by
  refine ⟨?_, rfl, ?_⟩
  · simp [endGame, foldl_add_eq_sum]
  · simp [endGame, foldl_add_eq_sum]

-- ===========================================================================
-- C2
-- ===========================================================================

/-- C2 (counterexample): at a game with both 100-sat deposits confirmed
(`pot = 200`) and no captures, a decisive ending yields
`winnerPayout + platformCut = 197 + 3 = 200`, but the returned `pot`
field is `game.pot + 2 × deposit = 400`, so the claimed identity
`winnerPayout + platformCut = pot_at_settlement` is false. -/
theorem C2_counterexample :
    ¬ (((endGame gameC2 PlayerSlot.white GameEndReason.checkmate).2).winnerPayout
        + ((endGame gameC2 PlayerSlot.white GameEndReason.checkmate).2).platformCut
        = ((endGame gameC2 PlayerSlot.white GameEndReason.checkmate).2).pot) := by
  decide

/-- C2 (amended): for every decisive ending,
`winnerPayout + platformCut` equals twice the deposit plus the winner's
capturer-shares plus the whole ledger's platform shares — NOT the
returned `pot` field, which equals `game.pot + 2 × deposit` and so
counts the deposits twice once both wagers were confirmed into `pot`. -/
theorem C2_amended_payout_identity (g : GameState) (w : PlayerSlot) (r : GameEndReason) :
    ((endGame g w r).2).winnerPayout + ((endGame g w r).2).platformCut
      = 2 * g.depositSats
        + (((g.capturePayments.filter (fun cp => decide (cp.toSlot = w))).map
            (fun cp => cp.capturerSats)).sum)
        + ((g.capturePayments.map (fun cp => cp.platformSats)).sum)
    ∧ ((endGame g w r).2).pot = g.pot + g.depositSats * 2 := by
  constructor
  · have hle := depositCut_le g.depositSats
    simp only [endGame, foldl_add_eq_sum, Nat.zero_add,
      show (fun cp : CapturePayment => cp.capturerSats) = CapturePayment.capturerSats from rfl,
      show (fun cp : CapturePayment => cp.platformSats) = CapturePayment.platformSats from rfl]
    omega
  · rfl

-- ===========================================================================
-- C4
-- ===========================================================================

/-- C4: on a draw, each seat receives exactly its own deposit minus the
platform cut on that deposit, the payout does not depend on the capture
ledger, and `2 × sharePerSeat + platformCut = 2 × depositAmount`. -/
theorem C4_endGameDraw_payouts (g : GameState) (r : GameEndReason) :
    ((endGameDraw g r).2).winnerPayout
      = g.depositSats - (g.depositSats * PLATFORM_CUT_PERCENT + 99) / 100
    ∧ ((endGameDraw g r).2).loserPayout = ((endGameDraw g r).2).winnerPayout
    ∧ 2 * ((endGameDraw g r).2).winnerPayout + ((endGameDraw g r).2).platformCut
        = 2 * g.depositSats
    ∧ (∀ ledger : List CapturePayment,
        ((endGameDraw { g with capturePayments := ledger } r).2).winnerPayout
          = ((endGameDraw g r).2).winnerPayout
        ∧ ((endGameDraw { g with capturePayments := ledger } r).2).loserPayout
          = ((endGameDraw g r).2).loserPayout) := by
  refine ⟨?_, rfl, ?_, fun ledger => ⟨rfl, rfl⟩⟩
  · simp [endGameDraw, PLATFORM_CUT_PERCENT]
    omega
  · simp [endGameDraw, PLATFORM_CUT_PERCENT]
    omega

-- ===========================================================================
-- C5
-- ===========================================================================

/-- C5 (the code violates the claim): `confirmWagerPayment` carries no
phase guard, so on a game already in phase `gameover` it still succeeds
and increases `pot` by the deposit — the pot is mutated after the game
entered `gameover`. -/
theorem C5_pot_mutated_after_gameover :
    gameC5.phase = GamePhase.gameover
    ∧ ((confirmWagerPayment mgrC5 "g5" PlayerSlot.black).2).success = true
    ∧ (assocFind ((confirmWagerPayment mgrC5 "g5" PlayerSlot.black).1).games "g5").map
        GameState.pot = some (gameC5.pot + gameC5.depositSats)
    ∧ gameC5.pot + gameC5.depositSats ≠ gameC5.pot := by
  decide

-- ===========================================================================
-- C6
-- ===========================================================================

/-- C6 (the code violates the claim): `confirmWagerPayment` also lacks
the already-confirmed guard; re-confirming a seat that already paid, on
a game already in phase `gameover`, succeeds, adds the deposit to `pot`
again, and — because both seats then read as paid — re-fires the
transition to phase `playing`, resurrecting a finished game. -/
theorem C6_confirmWager_unguarded :
    gameC6.phase = GamePhase.gameover
    ∧ gameC6.white.wagerPaid = true
    ∧ ((confirmWagerPayment mgrC6 "g6" PlayerSlot.white).2).success = true
    ∧ (assocFind ((confirmWagerPayment mgrC6 "g6" PlayerSlot.white).1).games "g6").map
        GameState.pot = some (gameC6.pot + gameC6.depositSats)
    ∧ (assocFind ((confirmWagerPayment mgrC6 "g6" PlayerSlot.white).1).games "g6").map
        GameState.phase = some GamePhase.playing := by
  decide

-- ===========================================================================
-- C9
-- ===========================================================================

/-- C9 (the code contradicts its own comment and the claim): the source
expression `WORST_CASE_CAPTURE_PERCENT = 90 + 80*2 + 70*2 + 70*2 + 20*8`
evaluates to 690 although the adjacent comment asserts 790, which is the
sum of the capture percentages over a full initial army (king included).
At the Dollar tier, in JS double arithmetic (790 * 1.1 rounds to
869.0000000000001), the code computes 870 cents while the claim's
full-army formula gives 980 cents. -/
theorem C9_minBalance_code_vs_claim :
    getTierByValue 100 = some dollarTier
    ∧ WORST_CASE_CAPTURE_PERCENT = 690
    ∧ fullArmyCapturePercent = 790
    ∧ getMinBalanceCents dollarTier = 870
    ∧ specMinBalanceCents dollarTier = 980
    ∧ getMinBalanceCents dollarTier ≠ specMinBalanceCents dollarTier := by
  refine ⟨by decide, by decide, by decide, by decide, by decide, by decide⟩

-- ===========================================================================
-- C7
-- ===========================================================================

/-- C7: every timer-expiry handler re-checks the game's current phase
before acting: if the game is already in phase `gameover` when the turn
clock, the funds-pause clock or the disconnect-grace clock fires, the
handler changes no state, computes no settlement, and raises no error. -/
theorem C7_timer_handlers_recheck_phase (g : GameState) (m : Manager) (gid : String)
    (slot forSlot : PlayerSlot) :
    (g.phase = GamePhase.gameover → turnTimerFire g = (g, none))
    ∧ (g.phase = GamePhase.gameover → pauseTimerFire forSlot g = (g, none))
    ∧ (assocFind m.games gid = some g → g.phase = GamePhase.gameover →
        disconnectTimerFire m gid slot = (m, none)) := by
  refine ⟨fun h => ?_, fun h => ?_, fun hf h => ?_⟩
  · simp [turnTimerFire, h]
  · simp [pauseTimerFire, h]
  · simp [disconnectTimerFire, hf, h]

/-- C7 witness: a fired turn, pause or disconnect timer at a concrete
finished game is a no-op. -/
theorem C7_witness :
    gameC7.phase = GamePhase.gameover
    ∧ assocFind mgrC7.games "g7" = some gameC7
    ∧ turnTimerFire gameC7 = (gameC7, none)
    ∧ pauseTimerFire PlayerSlot.white gameC7 = (gameC7, none)
    ∧ disconnectTimerFire mgrC7 "g7" PlayerSlot.black = (mgrC7, none) := by
  have h := C7_timer_handlers_recheck_phase gameC7 mgrC7 "g7" PlayerSlot.black PlayerSlot.white
  exact ⟨rfl, by decide, h.1 rfl, h.2.1 rfl, h.2.2 (by decide) rfl⟩

-- ===========================================================================
-- C10
-- ===========================================================================

/-- C10: the manager records no outstanding draw offers — `offerDraw`
returns the opponent's connection id without mutating any state, and
`acceptDraw` succeeds if and only if the caller is bound to a game in
phase `playing`, in which case it immediately ends that game with reason
`draw_agreement` (no prior offer is consulted; the state has no field
that could record one). -/
theorem C10_acceptDraw_needs_no_offer (m : Manager) (sid : String) :
    (offerDraw m sid).1 = m
    ∧ (((acceptDraw m sid).2).isSome
        ↔ ∃ g, getGameBySocket m sid = some g ∧ g.phase = GamePhase.playing)
    ∧ (∀ gid g, assocFind m.playerToGame sid = some gid →
        assocFind m.games gid = some g → g.phase = GamePhase.playing →
        (acceptDraw m sid).2 = some (endGameDraw g GameEndReason.draw_agreement).2
        ∧ ((endGameDraw g GameEndReason.draw_agreement).2).reason
            = GameEndReason.draw_agreement
        ∧ assocFind ((acceptDraw m sid).1).games gid
            = some (endGameDraw g GameEndReason.draw_agreement).1
        ∧ ((endGameDraw g GameEndReason.draw_agreement).1).phase = GamePhase.gameover) := by
  refine ⟨?_, ?_, ?_⟩
  · unfold offerDraw
    cases h1 : assocFind m.playerToGame sid with
    | none => rfl
    | some gid =>
      cases h2 : assocFind m.games gid with
      | none => simp [h2]
      | some g =>
        by_cases h3 : g.phase = GamePhase.playing
        · cases h4 : getSlot g sid <;> simp [h2, h3, h4]
        · simp [h2, h3]
  · unfold acceptDraw getGameBySocket
    cases h1 : assocFind m.playerToGame sid with
    | none => simp
    | some gid =>
      cases h2 : assocFind m.games gid with
      | none => simp [h2]
      | some g =>
        by_cases h3 : g.phase = GamePhase.playing
        · simp [h2, h3]
        · simp [h2, h3]
  · intro gid g h1 h2 h3
    unfold acceptDraw
    simp [h1, h2, h3, assocFind_assocSet_self, endGameDraw]

/-- C10 witness: at a concrete playing game with no recorded draw offer,
`offerDraw` leaves the manager unchanged and `acceptDraw` immediately
ends the game as a draw by agreement. -/
theorem C10_witness :
    (offerDraw mgrC10 "sa").1 = mgrC10
    ∧ ((acceptDraw mgrC10 "sa").2).isSome = true
    ∧ (acceptDraw mgrC10 "sa").2
        = some (endGameDraw gameC10 GameEndReason.draw_agreement).2
    ∧ assocFind ((acceptDraw mgrC10 "sa").1).games "gX"
        = some (endGameDraw gameC10 GameEndReason.draw_agreement).1 := by
  have h := C10_acceptDraw_needs_no_offer mgrC10 "sa"
  have hmain := h.2.2 "gX" gameC10 (by decide) (by decide) rfl
  exact ⟨h.1, (h.2.1).mpr ⟨gameC10, by decide, rfl⟩, hmain.1, hmain.2.2.1⟩

-- ===========================================================================
-- C3
-- ===========================================================================

/-- C3: every successful move in phase `playing` that captures a piece
appends a capture-ledger entry with total amount
`ceil(baseAmount * capturePercent(kind) / 100)` — percentages queen 90,
rook 80, bishop 70, knight 70, pawn 20, king 100 — platform share
`ceil(amount * platformCutPercent / 100)` with `platformCutPercent = 3`,
capturer share `amount - platformShare`, and increases `pot` by exactly
the total amount. -/
theorem C3_attemptMove_capture_ledger (m : Manager) (sid : String) (reply : EngineReply)
    (gid : String) (game : GameState) (slot : PlayerSlot) (mv : MoveOutcome)
    (pc : ChessPieceType)
    (hp : assocFind m.playerToGame sid = some gid)
    (hg : assocFind m.games gid = some game)
    (hphase : game.phase = GamePhase.playing)
    (hslot : getSlot game sid = some slot)
    (hturn : slot = currentTurnSlot game.chessTurn)
    (happ : reply.applied = some mv)
    (hcap : mv.captured = some pc) :
    PIECE_CAPTURE_PERCENT .q = 90 ∧ PIECE_CAPTURE_PERCENT .r = 80
    ∧ PIECE_CAPTURE_PERCENT .b = 70 ∧ PIECE_CAPTURE_PERCENT .n = 70
    ∧ PIECE_CAPTURE_PERCENT .p = 20 ∧ PIECE_CAPTURE_PERCENT .k = 100
    ∧ PLATFORM_CUT_PERCENT = 3
    ∧ ((attemptMove m sid reply).2).success = true
    ∧ (∃ gFin,
        assocFind ((attemptMove m sid reply).1).games gid = some gFin
        ∧ gFin.capturePayments = game.capturePayments ++
            [{ fromSlot := opponentSlot slot, toSlot := slot, piece := pc,
               amountSats := (game.baseSats * PIECE_CAPTURE_PERCENT pc + 99) / 100,
               capturerSats := (game.baseSats * PIECE_CAPTURE_PERCENT pc + 99) / 100
                 - (((game.baseSats * PIECE_CAPTURE_PERCENT pc + 99) / 100)
                      * PLATFORM_CUT_PERCENT + 99) / 100,
               platformSats := (((game.baseSats * PIECE_CAPTURE_PERCENT pc + 99) / 100)
                      * PLATFORM_CUT_PERCENT + 99) / 100,
               paid := false }]
        ∧ gFin.pot = game.pot
            + (game.baseSats * PIECE_CAPTURE_PERCENT pc + 99) / 100) := by
  subst hturn
  have hmain : ((attemptMove m sid reply).2).success = true
      ∧ (∃ gFin,
          assocFind ((attemptMove m sid reply).1).games gid = some gFin
          ∧ gFin.capturePayments = game.capturePayments ++
              [{ fromSlot := opponentSlot (currentTurnSlot game.chessTurn),
                 toSlot := currentTurnSlot game.chessTurn, piece := pc,
                 amountSats := (game.baseSats * PIECE_CAPTURE_PERCENT pc + 99) / 100,
                 capturerSats := (game.baseSats * PIECE_CAPTURE_PERCENT pc + 99) / 100
                   - (((game.baseSats * PIECE_CAPTURE_PERCENT pc + 99) / 100)
                        * PLATFORM_CUT_PERCENT + 99) / 100,
                 platformSats := (((game.baseSats * PIECE_CAPTURE_PERCENT pc + 99) / 100)
                        * PLATFORM_CUT_PERCENT + 99) / 100,
                 paid := false }]
          ∧ gFin.pot = game.pot
              + (game.baseSats * PIECE_CAPTURE_PERCENT pc + 99) / 100) := by
    unfold attemptMove
    simp only [hp, hg, hphase, hslot, happ]
    rw [if_neg (by simp)]
    rw [if_neg (by simp)]
    split_ifs <;>
      exact ⟨rfl, _, assocFind_assocSet_self m.games gid _,
        by simp [endGame_fst_capturePayments, endGameDraw_fst_capturePayments,
          applyCaptureBlock, hcap, setSeat_capturePayments, setSeat_baseSats],
        by simp [endGame_fst_pot, endGameDraw_fst_pot, applyCaptureBlock, hcap,
          setSeat_pot, setSeat_baseSats]⟩
  exact ⟨rfl, rfl, rfl, rfl, rfl, rfl, rfl, hmain.1, hmain.2⟩

/-- C3 witness: a pawn capture at `baseSats = 100000` produces a ledger
entry of 20000 sats with platform share 600 and capturer share 19400,
and the pot grows by 20000. -/
theorem C3_witness :
    (gameC3.baseSats * PIECE_CAPTURE_PERCENT .p + 99) / 100 = 20000
    ∧ ((20000 * PLATFORM_CUT_PERCENT + 99) / 100 : Nat) = 600
    ∧ (20000 - 600 : Nat) = 19400
    ∧ gameC3.pot + 20000 = 420000
    ∧ (PIECE_CAPTURE_PERCENT .q = 90 ∧ PIECE_CAPTURE_PERCENT .r = 80
       ∧ PIECE_CAPTURE_PERCENT .b = 70 ∧ PIECE_CAPTURE_PERCENT .n = 70
       ∧ PIECE_CAPTURE_PERCENT .p = 20 ∧ PIECE_CAPTURE_PERCENT .k = 100
       ∧ PLATFORM_CUT_PERCENT = 3
       ∧ ((attemptMove mgrC3 "s1" replyC3).2).success = true
       ∧ (∃ gFin,
           assocFind ((attemptMove mgrC3 "s1" replyC3).1).games "g3" = some gFin
           ∧ gFin.capturePayments = gameC3.capturePayments ++
               [{ fromSlot := opponentSlot PlayerSlot.white, toSlot := PlayerSlot.white,
                  piece := ChessPieceType.p,
                  amountSats := (gameC3.baseSats * PIECE_CAPTURE_PERCENT .p + 99) / 100,
                  capturerSats := (gameC3.baseSats * PIECE_CAPTURE_PERCENT .p + 99) / 100
                    - (((gameC3.baseSats * PIECE_CAPTURE_PERCENT .p + 99) / 100)
                         * PLATFORM_CUT_PERCENT + 99) / 100,
                  platformSats := (((gameC3.baseSats * PIECE_CAPTURE_PERCENT .p + 99) / 100)
                         * PLATFORM_CUT_PERCENT + 99) / 100,
                  paid := false }]
           ∧ gFin.pot = gameC3.pot
               + (gameC3.baseSats * PIECE_CAPTURE_PERCENT .p + 99) / 100)) :=
  ⟨by decide, by decide, by decide, by decide,
   C3_attemptMove_capture_ledger mgrC3 "s1" replyC3 "g3" gameC3 PlayerSlot.white mvC3
     ChessPieceType.p (by decide) (by decide) rfl (by decide) rfl rfl rfl⟩

-- ===========================================================================
-- C8
-- ===========================================================================

theorem mem_clearTurnTimer_live {x : LiveTimer} (s : TimerSys) (gid : String)
    (hx : x ∈ (clearTurnTimer s gid).live) : x ∈ s.live := by
  unfold clearTurnTimer at hx
  cases h : assocFind s.turnTimers gid with
  | none => simp only [h] at hx; exact hx
  | some t =>
    simp only [h, jsClearTimeout] at hx
    exact List.mem_of_mem_filter hx

theorem mem_clearDisconnectTimer_live {x : LiveTimer} (s : TimerSys) (gid : String)
    (slot : PlayerSlot) (hx : x ∈ (clearDisconnectTimer s gid slot).live) : x ∈ s.live := by
  unfold clearDisconnectTimer at hx
  cases h : assocFind s.disconnectTimers (discKey gid slot) with
  | none => simp only [h] at hx; exact hx
  | some t =>
    simp only [h, jsClearTimeout] at hx
    exact List.mem_of_mem_filter hx

theorem clearTurnTimer_disconnectTimers (s : TimerSys) (gid : String) :
    (clearTurnTimer s gid).disconnectTimers = s.disconnectTimers := by
  unfold clearTurnTimer
  cases h : assocFind s.turnTimers gid <;> simp [h, jsClearTimeout]

/-- C8 (counterexample): starting from an empty timer state, two
consecutive `pauseForFunds` calls for the same game leave TWO live
funds-pause timers under that key — the pause-clock start does not
cancel the existing pause timer first, so "at most one active timer per
key" fails for the funds-pause family. -/
theorem C8_counterexample :
    livePauseCount (pauseForFundsTimers (pauseForFundsTimers timersEmpty "gp") "gp") "gp" = 2
    ∧ ¬ livePauseCount
          (pauseForFundsTimers (pauseForFundsTimers timersEmpty "gp") "gp") "gp" ≤ 1 := by
  decide

/-- C8 (amended): the turn-clock start and the disconnect-grace start do
cancel the tracked timer under their key first — whenever every live
timer of that family/key is the tracked one, exactly one live timer
remains after the start. The funds-pause start does not: it only clears
the turn timer and then schedules one more pause timer, so the number of
live pause timers under the key always grows by one. -/
theorem C8_amended_start_discipline (s : TimerSys) (gid : String) (slot : PlayerSlot) :
    (turnConsistent s gid → liveTurnCount (startTurnTimer s gid) gid = 1)
    ∧ (discConsistent s gid slot →
        liveDiscCount (handleDisconnectTimers s gid slot) gid slot = 1)
    ∧ livePauseCount (pauseForFundsTimers s gid) gid
        = livePauseCount (clearTurnTimer s gid) gid + 1 := by
  refine ⟨?_, ?_, ?_⟩
  · intro hcons
    unfold startTurnTimer liveTurnCount jsSetTimeout
    simp only [List.countP_append]
    have h0 : (clearTurnTimer s gid).live.countP
        (fun t => decide (t.family = TimerFamily.turn ∧ t.gid = gid)) = 0 := by
      rw [List.countP_eq_zero]
      intro x hx hpx
      have hx0 : x ∈ s.live := mem_clearTurnTimer_live s gid hx
      have hpx' : x.family = TimerFamily.turn ∧ x.gid = gid := by simpa using hpx
      have htrk := hcons x hx0 hpx'.1 hpx'.2
      cases h : assocFind s.turnTimers gid with
      | none => rw [h] at htrk; exact Option.noConfusion htrk
      | some T =>
        rw [h] at htrk
        have hT : x.tid = T := by injection htrk with h2; exact h2.symm
        unfold clearTurnTimer at hx
        simp only [h, jsClearTimeout] at hx
        have hf := (List.mem_filter.mp hx).2
        simp [hT] at hf
    rw [h0]
    simp
  · intro hcons
    unfold handleDisconnectTimers liveDiscCount jsSetTimeout
    simp only [List.countP_append]
    have h0 : ((clearDisconnectTimer (clearTurnTimer s gid) gid slot).live.countP
        (fun t => decide (t.family = TimerFamily.disc ∧ t.gid = gid ∧ t.seat = some slot)))
        = 0 := by
      rw [List.countP_eq_zero]
      intro x hx hpx
      have hx1 : x ∈ (clearTurnTimer s gid).live :=
        mem_clearDisconnectTimer_live (clearTurnTimer s gid) gid slot hx
      have hx0 : x ∈ s.live := mem_clearTurnTimer_live s gid hx1
      have hpx' : x.family = TimerFamily.disc ∧ x.gid = gid ∧ x.seat = some slot := by
        simpa using hpx
      have htrk := hcons x hx0 hpx'.1 hpx'.2.1 hpx'.2.2
      have hdt := clearTurnTimer_disconnectTimers s gid
      cases h : assocFind s.disconnectTimers (discKey gid slot) with
      | none => rw [h] at htrk; exact Option.noConfusion htrk
      | some T =>
        rw [h] at htrk
        have hT : x.tid = T := by injection htrk with h2; exact h2.symm
        unfold clearDisconnectTimer at hx
        rw [hdt] at hx
        simp only [h, jsClearTimeout] at hx
        have hf := (List.mem_filter.mp hx).2
        simp [hT] at hf
    rw [h0]
    simp
  · unfold pauseForFundsTimers livePauseCount jsSetTimeout
    simp [List.countP_append]

/-- C8 witness: at a concrete timer state with one live, tracked turn
timer, the turn and disconnect starts leave exactly one live timer for
their keys, and the pause start adds one live pause timer. -/
theorem C8_witness :
    turnConsistent timersC8 "g8"
    ∧ discConsistent timersC8 "g8" PlayerSlot.white
    ∧ liveTurnCount (startTurnTimer timersC8 "g8") "g8" = 1
    ∧ liveDiscCount (handleDisconnectTimers timersC8 "g8" PlayerSlot.white) "g8"
        PlayerSlot.white = 1
    ∧ livePauseCount (pauseForFundsTimers timersC8 "g8") "g8"
        = livePauseCount (clearTurnTimer timersC8 "g8") "g8" + 1 := by
  have h := C8_amended_start_discipline timersC8 "g8" PlayerSlot.white
  exact ⟨by decide, by decide, h.1 (by decide), h.2.1 (by decide), h.2.2⟩
